/-
Verification development for the multi-swe-bench evaluation harness.

This file gives a shallow embedding of the two repository adapters under
`src/multi_swe_bench/harness/repos/` — `golang/gin_gonic/gin.py` and
`java/apache/dubbo.py` — together with the parts of the harness data model
they use.  The data-holder classes (`PullRequest`, `Config`, `File`,
`TestResult`) and the `Image` base-class plumbing live in
`multi_swe_bench/harness/{pull_request,image,instance}.py`, which are not
part of the source tree given here; those definitions are modelled from the
specification and are marked as such in their doc comments.  Everything
else is translated directly from the Python source.
-/
import Mathlib

/-! ## Character classes

Python's `re` module and `str` methods classify characters slightly
differently from one another.  The definitions below cover the ASCII and
Latin-1 characters these log formats can contain; rarer Unicode whitespace
(which never appears in build or test logs) is omitted.
-/

/-- Characters matched by the regex class `\s` (Python `re`, ASCII part). -/
def reSpace (c : Char) : Bool :=
  c = ' ' || c = '\t' || c = '\n' || c = '\r' || c = '\x0b' || c = '\x0c'

/-- Characters matched by the regex class `\w` plus nothing else: the word
characters used by the `\b` word-boundary assertion (ASCII part). -/
def isWordChar (c : Char) : Bool :=
  c.isAlpha || c.isDigit || c = '_'

/-- Line-boundary characters of Python's `str.splitlines` (`\r\n` pairs are
handled separately as a single boundary). -/
def isBreakChar (c : Char) : Bool :=
  c = '\n' || c = '\r' || c = '\x0b' || c = '\x0c' || c = '\x1c' ||
  c = '\x1d' || c = '\x1e' || c = '\x85' || c = '\u2028' || c = '\u2029'

/-- Characters removed by Python's `str.strip()` (whitespace per
`str.isspace`, ASCII/Latin-1 part). -/
def isStripSpace (c : Char) : Bool :=
  reSpace c || isBreakChar c || c = '\x1f' || c = '\xa0'

/-! ## List and string utilities -/

/-- Drop a literal pattern from the front of a character list; `none` when
the list does not start with the pattern.  This is the building block for
anchored literal matching (`re.match` of a literal). -/
def stripPre : List Char → List Char → Option (List Char)
  | [], s => some s
  | _ :: _, [] => none
  | p :: ps, c :: cs => if p = c then stripPre ps cs else none

/-- Substring test on character lists: `pat` occurs contiguously in `s`. -/
def containsSub (pat : List Char) : List Char → Bool
  | [] => pat.isEmpty
  | c :: t => pat.isPrefixOf (c :: t) || containsSub pat t

/-- Collapse each `\r\n` pair into a single `\n`, the first step of
`str.splitlines` (a `\r\n` pair is one line boundary, not two). -/
def normCRLF : List Char → List Char
  | [] => []
  | [c] => [c]
  | c :: d :: t =>
    if c = '\r' ∧ d = '\n' then '\n' :: normCRLF t
    else c :: normCRLF (d :: t)

/-- Split on line-boundary characters, accumulator style; a trailing
boundary does not produce an extra empty line (Python `str.splitlines`). -/
def splitBreak : List Char → List Char → List (List Char)
  | [], acc => if acc.isEmpty then [] else [acc.reverse]
  | c :: t, acc =>
    if isBreakChar c then acc.reverse :: splitBreak t []
    else splitBreak t (c :: acc)

/-- Python's `str.splitlines` on a character list. -/
def pySplitlines (s : List Char) : List (List Char) :=
  splitBreak (normCRLF s) []

/-- Python's `str.splitlines` returning strings. -/
def pyLines (s : String) : List String :=
  (pySplitlines s.data).map String.mk

/-- Python's `str.strip()`. -/
def pyStrip (l : List Char) : List Char :=
  ((l.dropWhile isStripSpace).reverse.dropWhile isStripSpace).reverse

/-- Join line chunks, terminating every line with `'\n'` (the shape of all
generated scripts, which end in a newline). -/
def joinNl : List (List Char) → List Char
  | [] => []
  | l :: ls => l ++ '\n' :: joinNl ls

/-! ## Data model

Modelled from the spec: the harness data-holder classes live in
`multi_swe_bench/harness/pull_request.py`, `image.py` and `instance.py`,
which are not under `src/`; §3 of the spec describes them. -/

/-- Modelled from the spec: the base-commit reference of a pull request
(`pr.base.sha` in the adapters). -/
structure BaseCommit where
  sha : String

/-- Modelled from the spec: a `PullRequest` record — org, repo, number,
base commit, fix patch text and test patch text (§3); the class itself is
in `multi_swe_bench/harness/pull_request.py`, not under `src/`. -/
structure PullRequest where
  org : String
  repo : String
  number : Nat
  base : BaseCommit
  fix_patch : String
  test_patch : String

/-- Modelled from the spec: per-evaluation `Config` — the `need_clone`
switch plus the caller-supplied environment blocks that the `Image` base
class renders verbatim before (`global_env`) and after (`clear_env`) each
layer's own instructions (§3, §4.1). -/
structure Config where
  need_clone : Bool
  global_env : String
  clear_env : String

/-- Modelled from the spec: a `File` is a (directory, name, content-text)
triple describing one file of the build context (§3). -/
structure File where
  dir : String
  name : String
  content : String

/-- Modelled from the spec: `TestResult` — three counts and three sets of
test identifiers (§3); the dataclass is in
`multi_swe_bench/harness/instance.py`, not under `src/`. -/
structure TestResult where
  passed_count : Nat
  failed_count : Nat
  skipped_count : Nat
  passed_tests : Finset String
  failed_tests : Finset String
  skipped_tests : Finset String

/-- The all-empty `TestResult`. -/
def emptyTestResult : TestResult := ⟨0, 0, 0, ∅, ∅, ∅⟩

/-! ## gin adapter: `parse_log`

Source: `src/multi_swe_bench/harness/repos/golang/gin_gonic/gin.py`,
`InstanceTemplate.parse_log`.  Each (stripped) line is run through five
anchored patterns compiled with `re.compile` and applied with `.match`:
`--- PASS: (\S+)`, `--- FAIL: (\S+)`, `--- SKIP: (\S+)`,
`^ok\s+(\S+)\b` and `^FAIL\s+(\S+)\b`.
-/

/-- Anchored match of a literal prefix followed by `(\S+)`: succeeds when
the line starts with `pre` followed by at least one non-space character;
the capture is the maximal run of non-space characters (greedy `\S+` with
nothing after it, so no backtracking). -/
def reCapS (pre : List Char) (line : List Char) : Option (List Char) :=
  match stripPre pre line with
  | none => none
  | some rest =>
    let cap := rest.takeWhile (fun c => !reSpace c)
    if cap.isEmpty then none else some cap

/-- Word-boundary test of `\b` between positions `k-1` and `k` of a run of
non-space characters whose successor in the line (when `k` is the run's
length) is a space or the end of the line. -/
def boundaryOk (run : List Char) (k : Nat) : Bool :=
  if k = 0 then false
  else
    match run.get? (k - 1), run.get? k with
    | some a, some b => isWordChar a != isWordChar b
    | some a, none => isWordChar a
    | _, _ => false

/-- Capture of `(\S+)\b` applied to a maximal non-space run: `\S+` is
greedy and backtracks until the boundary assertion holds, so the capture is
the longest non-empty prefix of the run ending at a word boundary. -/
def wbCapture (run : List Char) : Option (List Char) :=
  match (((List.range (run.length + 1)).filter (fun k => boundaryOk run k)).max?) with
  | some k => some (run.take k)
  | none => none

/-- Anchored match of `^kw\s+(\S+)\b` (the package-level patterns
`re_pkg_ok` and `re_pkg_fail`): the literal keyword, at least one
whitespace character (greedy `\s+`; shortening it would leave a space for
`\S+`, which cannot match, so no backtracking arises), then `(\S+)\b`. -/
def reKwPkg (kw : List Char) (line : List Char) : Option (List Char) :=
  match stripPre kw line with
  | none => none
  | some r1 =>
    let ws := r1.takeWhile reSpace
    if ws.isEmpty then none
    else
      let r2 := r1.drop ws.length
      let run := r2.takeWhile (fun c => !reSpace c)
      if run.isEmpty then none else wbCapture run

/-- `re_pass = re.compile(r"--- PASS: (\S+)")`, applied with `.match`. -/
def ginPassName (line : List Char) : Option (List Char) :=
  reCapS "--- PASS: ".data line

/-- `re_fail = re.compile(r"--- FAIL: (\S+)")`, applied with `.match`. -/
def ginFailName (line : List Char) : Option (List Char) :=
  reCapS "--- FAIL: ".data line

/-- `re_skip = re.compile(r"--- SKIP: (\S+)")`, applied with `.match`. -/
def ginSkipName (line : List Char) : Option (List Char) :=
  reCapS "--- SKIP: ".data line

/-- `re_pkg_ok = re.compile(r"^ok\s+(\S+)\b")`: compiled by `parse_log`
but never applied to any line — no branch of the loop uses it. -/
def ginPkgOkName (line : List Char) : Option (List Char) :=
  reKwPkg "ok".data line

/-- `re_pkg_fail = re.compile(r"^FAIL\s+(\S+)\b")`, applied with `.match`. -/
def ginPkgFailName (line : List Char) : Option (List Char) :=
  reKwPkg "FAIL".data line

/-- One iteration of the gin `parse_log` loop on an already-stripped line:
four independent `if m := pat.match(line)` statements; package-level `FAIL`
matches are added to the failed set under the `pkg::` namespace. -/
def ginStepLine (st : Finset String × Finset String × Finset String)
    (line : List Char) : Finset String × Finset String × Finset String :=
  let p := match ginPassName line with
    | some t => insert (String.mk t) st.1
    | none => st.1
  let f := match ginFailName line with
    | some t => insert (String.mk t) st.2.1
    | none => st.2.1
  let k := match ginSkipName line with
    | some t => insert (String.mk t) st.2.2
    | none => st.2.2
  let f2 := match ginPkgFailName line with
    | some t => insert ("pkg::" ++ String.mk t) f
    | none => f
  (p, f2, k)

/-- One iteration of the gin `parse_log` loop: `line = line.strip()` then
the pattern tests. -/
def ginStep (st : Finset String × Finset String × Finset String)
    (raw : List Char) : Finset String × Finset String × Finset String :=
  ginStepLine st (pyStrip raw)

/-- The extraction loop of gin `parse_log`:
`for line in test_log.splitlines(): ...` starting from empty sets. -/
def ginExtract (log : String) : Finset String × Finset String × Finset String :=
  (pySplitlines log.data).foldl ginStep (∅, ∅, ∅)

/-- gin `InstanceTemplate.parse_log`: extraction, then the disjointness
reduction `passed -= failed; skipped -= failed; skipped -= passed`, then
the `TestResult` with counts taken as the sizes of the final sets. -/
def gin_parse_log (log : String) : TestResult :=
  let ex := ginExtract log
  let failed := ex.2.1
  let passed := ex.1 \ failed
  let skipped := (ex.2.2 \ failed) \ passed
  { passed_count := passed.card
    failed_count := failed.card
    skipped_count := skipped.card
    passed_tests := passed
    failed_tests := failed
    skipped_tests := skipped }

/-! ## dubbo adapter: `parse_log`

Source: `src/multi_swe_bench/harness/repos/java/apache/dubbo.py`,
`InstanceTemplate.parse_log`.  Two multi-line patterns are applied with
`findall`:

* the pass/summary pattern
  `Running\s+(.+?)\s*\n(?:(?!Tests run:).*\n)*Tests run:\s*(\d+),\s*Failures:\s*(\d+),\s*Errors:\s*(\d+),\s*Skipped:\s*(\d+),\s*Time elapsed:\s*[\d.]+\s*sec`
* the failure pattern
  `Running (.+?)\nTests run: (\d+), Failures: (\d+), Errors: (\d+), Skipped: (\d+), Time elapsed: [\d\.]+ sec +<<< FAILURE!`

Both are invoked as `pattern.findall(test_log, re.MULTILINE)`.
`Pattern.findall`'s second parameter is `pos`, not `flags`, and
`re.MULTILINE` has the integer value 8, so the scan starts at character
index 8 of the log (a match can never begin before index 8).
-/

/-- Python `int()` applied to the digits captured by `(\d+)`: the maximal
non-empty digit run at the front of the input, with the rest returned. -/
def parseNat (s : List Char) : Option (Nat × List Char) :=
  let ds := s.takeWhile Char.isDigit
  if ds.isEmpty then none
  else some (ds.foldl (fun a c => 10 * a + (c.toNat - 48)) 0, s.drop ds.length)

/-- Greedy `\s*`: skip regex whitespace. -/
def skipSpaces (s : List Char) : List Char := s.dropWhile reSpace

/-- The tail of the pass/summary pattern, entered right after the literal
`Tests run:`:
`\s*(\d+),\s*Failures:\s*(\d+),\s*Errors:\s*(\d+),\s*Skipped:\s*(\d+),\s*Time elapsed:\s*[\d.]+\s*sec`.
All quantified pieces here are followed by characters outside their class
(a digit run by `,`, a whitespace run by a letter or digit, `[\d.]+` by a
space or `s`), so the greedy first attempt is the only possible one and no
backtracking arises.  Returns the four captured numbers and the rest of the
input after `sec`. -/
def mvnTail (s : List Char) : Option ((Nat × Nat × Nat × Nat) × List Char) :=
  match parseNat (skipSpaces s) with
  | none => none
  | some (n1, s1) =>
    match stripPre [','] s1 with
    | none => none
    | some s2 =>
      match stripPre "Failures:".data (skipSpaces s2) with
      | none => none
      | some s3 =>
        match parseNat (skipSpaces s3) with
        | none => none
        | some (n2, s4) =>
          match stripPre [','] s4 with
          | none => none
          | some s5 =>
            match stripPre "Errors:".data (skipSpaces s5) with
            | none => none
            | some s6 =>
              match parseNat (skipSpaces s6) with
              | none => none
              | some (n3, s7) =>
                match stripPre [','] s7 with
                | none => none
                | some s8 =>
                  match stripPre "Skipped:".data (skipSpaces s8) with
                  | none => none
                  | some s9 =>
                    match parseNat (skipSpaces s9) with
                    | none => none
                    | some (n4, s10) =>
                      match stripPre [','] s10 with
                      | none => none
                      | some s11 =>
                        match stripPre "Time elapsed:".data (skipSpaces s11) with
                        | none => none
                        | some s12 =>
                          let s13 := skipSpaces s12
                          let dd := s13.takeWhile (fun c => c.isDigit || c = '.')
                          if dd.isEmpty then none
                          else
                            match stripPre "sec".data (skipSpaces (s13.drop dd.length)) with
                            | none => none
                            | some s14 => some ((n1, n2, n3, n4), s14)

/-- The `(?:(?!Tests run:).*\n)*Tests run:<tail>` part of the pass/summary
pattern, entered at the start of a line: the starred group is greedy and
each iteration consumes a whole line ending in `\n`, but the negative
lookahead `(?!Tests run:)` lets it consume a line exactly when the line
does not start with `Tests run:` — so iterating is deterministic.  When a
line starts with `Tests run:` the tail must match there; if it does not,
no backtracking can help (fewer iterations would require `Tests run:` to
match at a position where the lookahead already established it does not),
so the whole match attempt fails, mirroring the engine. -/
def passBody (fuel : Nat) (name : List Char) (s : List Char) :
    Option ((List Char × Nat × Nat × Nat × Nat) × List Char) :=
  match fuel with
  | 0 => none
  | fuel' + 1 =>
    match stripPre "Tests run:".data s with
    | some r => (mvnTail r).map (fun x => ((name, x.1.1, x.1.2.1, x.1.2.2.1, x.1.2.2.2), x.2))
    | none =>
      let seg := s.takeWhile (fun c => c ≠ '\n')
      match s.drop seg.length with
      | '\n' :: r2 => passBody fuel' name r2
      | _ => none

/-- One anchored attempt of the pass/summary pattern at the current
position: literal `Running`, greedy `\s+` (which, like `\s*`, may span
newlines), then the lazy group `(.+?)\s*\n`.  Since `.` excludes `'\n'`,
the lazy capture plus the greedy-then-backtracking `\s*` resolve to the
remainder of the current line with its trailing whitespace stripped, and
the pattern's `\n` consumes the line's newline; the body/tail part then
starts at the next line.  Returns the five captures and the rest of the
input after the match. -/
def matchPassAt (s : List Char) :
    Option ((List Char × Nat × Nat × Nat × Nat) × List Char) :=
  match stripPre "Running".data s with
  | none => none
  | some r0 =>
    let ws := r0.takeWhile reSpace
    if ws.isEmpty then none
    else
      let r1 := r0.drop ws.length
      let seg := r1.takeWhile (fun c => c ≠ '\n')
      let name := (seg.reverse.dropWhile reSpace).reverse
      if name.isEmpty then none
      else
        match r1.drop seg.length with
        | '\n' :: r2 => passBody (r2.length + 1) name r2
        | _ => none

/-- One anchored attempt of the failure pattern at the current position.
After `Running ` (one literal space) the lazy `(.+?)` followed by the
literal `\n` forces the capture to be exactly the remainder of the current
line (non-empty); every other piece is a literal or a greedy run followed
by a character outside its class, so the parse is deterministic.  Only the
first capture (the test name) is used by `parse_log`. -/
def matchFailAt (s : List Char) : Option (List Char × List Char) :=
  match stripPre "Running ".data s with
  | none => none
  | some r0 =>
    let seg := r0.takeWhile (fun c => c ≠ '\n')
    if seg.isEmpty then none
    else
      match r0.drop seg.length with
      | '\n' :: r1 =>
        match stripPre "Tests run: ".data r1 with
        | none => none
        | some r2 =>
          match parseNat r2 with
          | none => none
          | some (_, s1) =>
            match stripPre ", Failures: ".data s1 with
            | none => none
            | some s2 =>
              match parseNat s2 with
              | none => none
              | some (_, s3) =>
                match stripPre ", Errors: ".data s3 with
                | none => none
                | some s4 =>
                  match parseNat s4 with
                  | none => none
                  | some (_, s5) =>
                    match stripPre ", Skipped: ".data s5 with
                    | none => none
                    | some s6 =>
                      match parseNat s6 with
                      | none => none
                      | some (_, s7) =>
                        match stripPre ", Time elapsed: ".data s7 with
                        | none => none
                        | some s8 =>
                          let dd := s8.takeWhile (fun c => c.isDigit || c = '.')
                          if dd.isEmpty then none
                          else
                            match stripPre " sec".data (s8.drop dd.length) with
                            | none => none
                            | some s9 =>
                              let sp := s9.takeWhile (fun c => c = ' ')
                              if sp.isEmpty then none
                              else
                                match stripPre "<<< FAILURE!".data (s9.drop sp.length) with
                                | none => none
                                | some s10 => some (seg, s10)
      | _ => none

/-- `findall` scan for the pass/summary pattern: try a match at each
position from left to right; on success record the captures and resume
after the match (matches never overlap and always consume at least one
character), otherwise advance one position. -/
def scanPass (fuel : Nat) (s : List Char) :
    List (List Char × Nat × Nat × Nat × Nat) :=
  match fuel with
  | 0 => []
  | fuel' + 1 =>
    match s with
    | [] => []
    | _ :: tail =>
      match matchPassAt s with
      | some (res, rest) => res :: scanPass fuel' rest
      | none => scanPass fuel' tail

/-- `findall` scan for the failure pattern. -/
def scanFail (fuel : Nat) (s : List Char) : List (List Char) :=
  match fuel with
  | 0 => []
  | fuel' + 1 =>
    match s with
    | [] => []
    | _ :: tail =>
      match matchFailAt s with
      | some (name, rest) => name :: scanFail fuel' rest
      | none => scanFail fuel' tail

/-- dubbo `InstanceTemplate.parse_log`.  `findall(test_log, re.MULTILINE)`
starts the scan at character index 8 because `re.MULTILINE = 8` lands in
the `pos` parameter of `Pattern.findall` (the flag itself would be
irrelevant: neither pattern uses `^` or `$`).  Each pass/summary match is
classified by its numbers exactly as in the source
(`tests_run > 0 and failures == 0 and errors == 0 and skipped != tests_run`
→ passed, `elif failures > 0 or errors > 0` → failed,
`elif skipped == tests_run` → skipped); each failure match adds its name to
the failed set.  No disjointness reduction is performed. -/
def dubbo_parse_log (log : String) : TestResult :=
  let chars := log.data.drop 8
  let passRes := scanPass (chars.length + 1) chars
  let failRes := scanFail (chars.length + 1) chars
  let acc := passRes.foldl
    (fun acc t =>
      let name := String.mk t.1
      if t.2.1 > 0 ∧ t.2.2.1 = 0 ∧ t.2.2.2.1 = 0 ∧ t.2.2.2.2 ≠ t.2.1 then
        (insert name acc.1, acc.2.1, acc.2.2)
      else if t.2.2.1 > 0 ∨ t.2.2.2.1 > 0 then
        (acc.1, insert name acc.2.1, acc.2.2)
      else if t.2.2.2.2 = t.2.1 then
        (acc.1, acc.2.1, insert name acc.2.2)
      else acc)
    ((∅ : Finset String), (∅ : Finset String), (∅ : Finset String))
  let failed := failRes.foldl (fun f n => insert (String.mk n) f) acc.2.1
  { passed_count := acc.1.card
    failed_count := failed.card
    skipped_count := acc.2.2.card
    passed_tests := acc.1
    failed_tests := failed
    skipped_tests := acc.2.2 }

/-! ## gin adapter: files and build instructions

Source: `gin.py`, `ImageBase` and `ImageDefault`.  The `.format(pr=...)` /
f-string interpolations are rendered as string concatenation; everything
else is the literal text of the source.  `ImageBase.image_name()` is
inherited from the `Image` base class (`multi_swe_bench/harness/image.py`,
not under `src/`), so the functions below take the parent's rendered name
as an explicit `parentName` argument — modelled from the spec: each layer
"references its parent by name:tag" (§2, §4.1).  Likewise `global_env` and
`clear_env` come from the caller's `Config` (§4.1).
-/

/-- gin `run.sh` (`ImageDefault.files`). -/
def ginRunSh (pr : PullRequest) : String :=
  "#!/bin/bash\nset -e\ncd /home/" ++ pr.repo ++ "\ngo test -v -count=1 ./...\n"

/-- gin `test-run.sh` (`ImageDefault.files`). -/
def ginTestRunSh (pr : PullRequest) : String :=
  "#!/bin/bash\nset -e\ncd /home/" ++ pr.repo ++
  "\ngit apply /home/test.patch\ngo test -v -count=1 ./...\n"

/-- gin `fix-run.sh` (`ImageDefault.files`). -/
def ginFixRunSh (pr : PullRequest) : String :=
  "#!/bin/bash\nset -e\ncd /home/" ++ pr.repo ++
  "\ngit apply /home/test.patch /home/fix.patch\ngo test -v -count=1 ./...\n"

/-- gin `check_git_changes.sh` (`ImageDefault.files`). -/
def ginCheckGitChangesSh : String :=
  "#!/bin/bash\nset -e\nif ! git rev-parse --is-inside-work-tree > /dev/null 2>&1; then\n  echo \"Not inside git repo\"; exit 1;\nfi\nif [[ -n $(git status --porcelain) ]]; then\n  echo \"Uncommitted changes\"; exit 1;\nfi\necho \"Clean\"\n"

/-- gin `resolve_go_file.sh` (`ImageDefault.files`). -/
def ginResolveGoFileSh : String :=
  "#!/bin/bash\nset -e\nREPO_PATH=\"$1\"\nfind \"$REPO_PATH\" -type f -name \"*.go\" | while read -r file; do\n  if [[ $(cat \"$file\") =~ ^[./a-zA-Z0-9_\\-]+\\.go$ ]]; then\n    target=$(cat \"$file\")\n    abs=$(realpath -m \"$(dirname \"$file\")/$target\")\n    if [ -f \"$abs\" ]; then\n      cat \"$abs\" > \"$file\"\n    fi\n  fi\ndone\n"

/-- gin `prepare.sh` (`ImageDefault.files`). -/
def ginPrepareSh (pr : PullRequest) : String :=
  "#!/bin/bash\nset -e\ncd /home/" ++ pr.repo ++
  "\ngit reset --hard\nbash /home/check_git_changes.sh\ngit checkout " ++
  pr.base.sha ++
  "\nbash /home/check_git_changes.sh\nbash /home/resolve_go_file.sh /home/" ++
  pr.repo ++ "\n\n# Injected setup commands\n\n\ngo test -v -count=1 ./... || true\n"

/-- gin `ImageDefault.files()` in source order. -/
def ginFiles (pr : PullRequest) : List File :=
  [⟨".", "fix.patch", pr.fix_patch⟩,
   ⟨".", "test.patch", pr.test_patch⟩,
   ⟨".", "run.sh", ginRunSh pr⟩,
   ⟨".", "test-run.sh", ginTestRunSh pr⟩,
   ⟨".", "fix-run.sh", ginFixRunSh pr⟩,
   ⟨".", "check_git_changes.sh", ginCheckGitChangesSh⟩,
   ⟨".", "resolve_go_file.sh", ginResolveGoFileSh⟩,
   ⟨".", "prepare.sh", ginPrepareSh pr⟩]

/-- `copy_cmds = "".join([f"COPY {f.name} /home/\n" for f in self.files()])`
(identical in both adapters). -/
def copyCmds (fs : List File) : String :=
  String.join (fs.map (fun f => "COPY " ++ f.name ++ " /home/\n"))

/-- gin `ImageBase.dockerfile()`: `dependency()` returns the external
string `"golang:latest"`, so `image_name` is that string; the body is the
clone/copy switch on `config.need_clone`. -/
def ginImageBaseDockerfile (pr : PullRequest) (cfg : Config) : String :=
  "FROM golang:latest\n\n" ++ cfg.global_env ++ "\n\nWORKDIR /home/\n\n" ++
  (if cfg.need_clone then
    "RUN git clone https://github.com/" ++ pr.org ++ "/" ++ pr.repo ++
    ".git /home/" ++ pr.repo
  else
    "COPY " ++ pr.repo ++ " /home/" ++ pr.repo) ++
  "\n\n" ++ cfg.clear_env ++ "\n\n"

/-- gin `ImageDefault.dockerfile()`: parent reference (the parent's
`image_tag()` is `"base"`), global env block, one `COPY` per file, the
`chmod +x` fix-up, the `prepare.sh` invocation, clear env block. -/
def ginImageDefaultDockerfile (pr : PullRequest) (cfg : Config)
    (parentName : String) : String :=
  "FROM " ++ parentName ++ ":base\n\n" ++ cfg.global_env ++ "\n\n" ++
  copyCmds (ginFiles pr) ++
  "\nRUN chmod +x /home/prepare.sh /home/run.sh /home/test-run.sh /home/fix-run.sh /home/check_git_changes.sh /home/resolve_go_file.sh\nRUN bash /home/prepare.sh\n\n" ++
  cfg.clear_env ++ "\n\n"

/-! ## dubbo adapter: files and build instructions (source: `dubbo.py`) -/

/-- dubbo `check_git_changes.sh` (`ImageDefault.files`). -/
def dubboCheckGitChangesSh : String :=
  "#!/bin/bash\nset -e\n\nif ! git rev-parse --is-inside-work-tree > /dev/null 2>&1; then\n  echo \"check_git_changes: Not inside a git repository\"\n  exit 1\nfi\n\nif [[ -n $(git status --porcelain) ]]; then\n  echo \"check_git_changes: Uncommitted changes\"\n  exit 1\nfi\n\necho \"check_git_changes: No uncommitted changes\"\nexit 0\n\n"

/-- dubbo `prepare.sh` (`ImageDefault.files`). -/
def dubboPrepareSh (pr : PullRequest) : String :=
  "#!/bin/bash\nset -e\n\ncd /home/" ++ pr.repo ++
  "\ngit reset --hard\nbash /home/check_git_changes.sh\ngit checkout " ++
  pr.base.sha ++
  "\nbash /home/check_git_changes.sh\n\n# Injected setup commands\n\n\nmvn clean test -Dmaven.test.skip=false -DfailIfNoTests=false || true\n"

/-- dubbo `run.sh` (`ImageDefault.files`). -/
def dubboRunSh (pr : PullRequest) : String :=
  "#!/bin/bash\nset -e\n\ncd /home/" ++ pr.repo ++
  "\nmvn clean test -Dmaven.test.skip=false -DfailIfNoTests=false\n"

/-- dubbo `test-run.sh` (`ImageDefault.files`). -/
def dubboTestRunSh (pr : PullRequest) : String :=
  "#!/bin/bash\nset -e\n\ncd /home/" ++ pr.repo ++
  "\ngit apply --whitespace=nowarn /home/test.patch\nmvn clean test -Dmaven.test.skip=false -DfailIfNoTests=false\n\n"

/-- dubbo `fix-run.sh` (`ImageDefault.files`). -/
def dubboFixRunSh (pr : PullRequest) : String :=
  "#!/bin/bash\nset -e\n\ncd /home/" ++ pr.repo ++
  "\ngit apply --whitespace=nowarn /home/test.patch /home/fix.patch\nmvn clean test -Dmaven.test.skip=false -DfailIfNoTests=false\n\n"

/-- dubbo `ImageDefault.files()` in source order. -/
def dubboFiles (pr : PullRequest) : List File :=
  [⟨".", "fix.patch", pr.fix_patch⟩,
   ⟨".", "test.patch", pr.test_patch⟩,
   ⟨".", "check_git_changes.sh", dubboCheckGitChangesSh⟩,
   ⟨".", "prepare.sh", dubboPrepareSh pr⟩,
   ⟨".", "run.sh", dubboRunSh pr⟩,
   ⟨".", "test-run.sh", dubboTestRunSh pr⟩,
   ⟨".", "fix-run.sh", dubboFixRunSh pr⟩]

/-- dubbo `ImageBase.dockerfile()`: base reference `"ubuntu:22.04"`,
toolchain setup, then the clone/copy switch on `config.need_clone`. -/
def dubboImageBaseDockerfile (pr : PullRequest) (cfg : Config) : String :=
  "FROM ubuntu:22.04\n\n" ++ cfg.global_env ++
  "\n\nENV DEBIAN_FRONTEND=noninteractive\nENV LANG=C.UTF-8\nENV LC_ALL=C.UTF-8\nWORKDIR /home/\nRUN apt-get update && apt-get install -y git openjdk-11-jdk\nRUN apt-get install -y maven\n" ++
  (if cfg.need_clone then
    "RUN git clone https://github.com/" ++ pr.org ++ "/" ++ pr.repo ++
    ".git /home/" ++ pr.repo
  else
    "COPY " ++ pr.repo ++ " /home/" ++ pr.repo) ++
  "\n\n" ++ cfg.clear_env ++ "\n\n"

/-- dubbo `ImageDefault.dockerfile()`: parent reference, global env block,
one `COPY` per file, the `prepare.sh` invocation, clear env block — with
no `chmod` fix-up step (the scripts are invoked via `bash`, never
executed directly). -/
def dubboImageDefaultDockerfile (pr : PullRequest) (cfg : Config)
    (parentName : String) : String :=
  "FROM " ++ parentName ++ ":base\n\n" ++ cfg.global_env ++ "\n\n" ++
  copyCmds (dubboFiles pr) ++
  "\n\nRUN bash /home/prepare.sh\n\n" ++ cfg.clear_env ++ "\n\n"

/-! ## Dependency chains

`InstanceTemplate.dependency()` returns `ImageDefault`;
`ImageDefault.dependency()` returns `ImageBase`; `ImageBase.dependency()`
returns the external base-reference string.  The `pr`/`config` arguments
are threaded through the image constructors but never influence the shape
of the chain, so the chain is modelled on layer identifiers. -/

/-- The two gin image layers (`ImageBase`, `ImageDefault` in `gin.py`). -/
inductive GinLayer
  | base
  | default
deriving DecidableEq

/-- gin `dependency()`: `ImageDefault → ImageBase → "golang:latest"`. -/
def ginDependency : GinLayer → Sum String GinLayer
  | .base => Sum.inl "golang:latest"
  | .default => Sum.inr .base

/-- The two dubbo image layers (`ImageBase`, `ImageDefault` in
`dubbo.py`). -/
inductive DubboLayer
  | base
  | default
deriving DecidableEq

/-- dubbo `dependency()`: `ImageDefault → ImageBase → "ubuntu:22.04"`. -/
def dubboDependency : DubboLayer → Sum String DubboLayer
  | .base => Sum.inl "ubuntu:22.04"
  | .default => Sum.inr .base

/-- Walk a dependency function from a layer with at most `fuel` hops,
returning the terminal external reference and the number of hops taken. -/
def chainWalk {I : Type} (dep : I → Sum String I) : Nat → I → Option (String × Nat)
  | 0, _ => none
  | fuel + 1, i =>
    match dep i with
    | Sum.inl s => some (s, 1)
    | Sum.inr j => (chainWalk dep fuel j).map (fun r => (r.1, r.2 + 1))

/-! ## Helper lemmas -/

theorem str_data_append (a b : String) : (a ++ b).data = a.data ++ b.data := rfl

theorem str_mk_append (a b : String) : a ++ b = String.mk (a.data ++ b.data) := rfl

theorem str_mk_data (s : String) : String.mk s.data = s := by
  cases s
  rfl

theorem containsSub_tail {pat : List Char} {c : Char} {t : List Char}
    (h : containsSub pat (c :: t) = false) : containsSub pat t = false := by
  simp only [containsSub, Bool.or_eq_false_iff] at h
  exact h.2

theorem containsSub_drop {pat s : List Char} (n : Nat)
    (h : containsSub pat s = false) : containsSub pat (s.drop n) = false := by
  induction n generalizing s with
  | zero => simpa using h
  | succ m ih =>
    cases s with
    | nil => simpa using h
    | cons c t => exact ih (containsSub_tail h)

theorem stripPre_eq_none_of_not_isPrefixOf {pat s : List Char}
    (h : pat.isPrefixOf s = false) : stripPre pat s = none := by
  induction pat generalizing s with
  | nil => simp [List.isPrefixOf] at h
  | cons p ps ih =>
    cases s with
    | nil => rfl
    | cons c t =>
      simp only [List.isPrefixOf, Bool.and_eq_false_iff] at h
      rcases h with h | h
      · simp only [stripPre]
        rw [if_neg]
        simpa using h
      · by_cases hpc : p = c
        · simp [stripPre, hpc, ih h]
        · simp [stripPre, hpc]

theorem containsSub_head_false {pat : List Char} {c : Char} {t : List Char}
    (h : containsSub pat (c :: t) = false) : pat.isPrefixOf (c :: t) = false := by
  simp only [containsSub, Bool.or_eq_false_iff] at h
  exact h.1

theorem isPrefixOf_of_append {p q s : List Char}
    (h : (p ++ q).isPrefixOf s = true) : p.isPrefixOf s = true := by
  rw [List.isPrefixOf_iff_prefix] at h ⊢
  exact (List.prefix_append p q).trans h

theorem containsSub_append_right {pat : List Char} (l : List Char) {r : List Char}
    (h : containsSub pat r = true) : containsSub pat (l ++ r) = true := by
  induction l with
  | nil => simpa using h
  | cons c t ih =>
    simp only [List.cons_append, containsSub, Bool.or_eq_true]
    exact Or.inr ih

theorem containsSub_of_pre {pat s : List Char}
    (h : pat.isPrefixOf s = true) : containsSub pat s = true := by
  cases s with
  | nil =>
    rw [List.isPrefixOf_iff_prefix] at h
    have : pat = [] := List.prefix_nil.mp h
    simp [containsSub, this]
  | cons c t =>
    simp only [containsSub, Bool.or_eq_true]
    exact Or.inl h

theorem containsSub_append_left {pat l : List Char} (r : List Char)
    (h : containsSub pat l = true) : containsSub pat (l ++ r) = true := by
  induction l with
  | nil =>
    simp only [containsSub] at h
    have : pat = [] := by simpa using h
    subst this
    cases r with
    | nil => simp [containsSub]
    | cons c t => simp [containsSub, List.isPrefixOf]
  | cons c t ih =>
    simp only [containsSub, Bool.or_eq_true] at h
    rcases h with h | h
    · refine containsSub_of_pre ?_
      rw [List.isPrefixOf_iff_prefix] at h ⊢
      exact h.trans (List.prefix_append (c :: t) r)
    · simp only [List.cons_append, containsSub, Bool.or_eq_true]
      exact Or.inr (ih h)

theorem containsSub_mem {pat s : List Char} {c : Char}
    (h : containsSub pat s = true) (hc : c ∈ pat) : c ∈ s := by
  induction s with
  | nil =>
    simp only [containsSub, List.isEmpty_iff] at h
    subst h
    simp at hc
  | cons a t ih =>
    simp only [containsSub, Bool.or_eq_true] at h
    rcases h with h | h
    · rw [List.isPrefixOf_iff_prefix] at h
      exact h.sublist.subset hc
    · exact List.mem_cons_of_mem a (ih h)

theorem normCRLF_no_cr : ∀ (l : List Char), (∀ c ∈ l, c ≠ '\r') → normCRLF l = l
  | [], _ => rfl
  | [_], _ => rfl
  | c :: d :: t, h => by
    have hc : c ≠ '\r' := h c (by simp)
    rw [normCRLF, if_neg (fun hx => hc hx.1)]
    have : normCRLF (d :: t) = d :: t :=
      normCRLF_no_cr (d :: t) (fun x hx => h x (List.mem_cons_of_mem _ hx))
    rw [this]

theorem splitBreak_chunk : ∀ (l : List Char) {rest acc : List Char},
    (∀ c ∈ l, isBreakChar c = false) →
    splitBreak (l ++ rest) acc = splitBreak rest (l.reverse ++ acc)
  | [], _, _, _ => by simp
  | c :: t, rest, acc, h => by
    have hc : isBreakChar c = false := h c (by simp)
    rw [List.cons_append, splitBreak, if_neg (by simp [hc])]
    rw [splitBreak_chunk t (fun x hx => h x (List.mem_cons_of_mem _ hx))]
    simp

theorem splitBreak_nl (rest acc : List Char) :
    splitBreak ('\n' :: rest) acc = acc.reverse :: splitBreak rest [] := by
  rw [splitBreak, if_pos (by decide)]

theorem splitBreak_joinNl : ∀ (ls : List (List Char)),
    (∀ l ∈ ls, ∀ c ∈ l, isBreakChar c = false) →
    splitBreak (joinNl ls) [] = ls
  | [], _ => by simp [joinNl, splitBreak]
  | l :: ls, h => by
    rw [joinNl, splitBreak_chunk l (h l (by simp)), splitBreak_nl]
    rw [splitBreak_joinNl ls (fun x hx => h x (List.mem_cons_of_mem _ hx))]
    simp

theorem mem_joinNl {c : Char} : ∀ {ls : List (List Char)},
    c ∈ joinNl ls → c = '\n' ∨ ∃ l ∈ ls, c ∈ l
  | [], h => by simp [joinNl] at h
  | l :: ls, h => by
    rw [joinNl] at h
    rcases List.mem_append.mp h with h | h
    · exact Or.inr ⟨l, by simp, h⟩
    · rcases List.mem_cons.mp h with h | h
      · exact Or.inl h
      · rcases mem_joinNl h with h | ⟨x, hx, hc⟩
        · exact Or.inl h
        · exact Or.inr ⟨x, List.mem_cons_of_mem _ hx, hc⟩

/-- Computation rule for `pyLines` on a string assembled from
newline-terminated, break-free line chunks. -/
theorem pyLines_of_chunks (s : String) (ls : List (List Char))
    (hdata : s.data = joinNl ls)
    (hclean : ∀ l ∈ ls, ∀ c ∈ l, isBreakChar c = false) :
    pyLines s = ls.map String.mk := by
  have hnocr : ∀ c ∈ joinNl ls, c ≠ '\r' := by
    intro c hc
    rcases mem_joinNl hc with h | ⟨l, hl, hcl⟩
    · subst h; decide
    · intro hcr
      have := hclean l hl c hcl
      rw [hcr] at this
      simp [isBreakChar] at this
  unfold pyLines pySplitlines
  rw [hdata, normCRLF_no_cr _ hnocr, splitBreak_joinNl ls hclean]

/-- A stripped line on which none of the four applied gin patterns match
leaves the extraction state unchanged. -/
theorem ginStepLine_id (st : Finset String × Finset String × Finset String)
    (line : List Char)
    (h1 : ginPassName line = none) (h2 : ginFailName line = none)
    (h3 : ginSkipName line = none) (h4 : ginPkgFailName line = none) :
    ginStepLine st line = st := by
  unfold ginStepLine
  rw [h1, h2, h3, h4]

theorem ginStep_id (st : Finset String × Finset String × Finset String)
    (raw : List Char)
    (h1 : ginPassName (pyStrip raw) = none) (h2 : ginFailName (pyStrip raw) = none)
    (h3 : ginSkipName (pyStrip raw) = none) (h4 : ginPkgFailName (pyStrip raw) = none) :
    ginStep st raw = st := by
  unfold ginStep
  exact ginStepLine_id st (pyStrip raw) h1 h2 h3 h4

theorem ginFold_id : ∀ (lines : List (List Char))
    (st : Finset String × Finset String × Finset String),
    (∀ l ∈ lines, ginPassName (pyStrip l) = none ∧ ginFailName (pyStrip l) = none ∧
      ginSkipName (pyStrip l) = none ∧ ginPkgFailName (pyStrip l) = none) →
    lines.foldl ginStep st = st
  | [], _, _ => rfl
  | l :: ls, st, h => by
    have hl := h l (by simp)
    rw [List.foldl_cons, ginStep_id st l hl.1 hl.2.1 hl.2.2.1 hl.2.2.2]
    exact ginFold_id ls st (fun x hx => h x (List.mem_cons_of_mem _ hx))

/-- When `"Running"` occurs nowhere in the input, the pass/summary match
fails at every position. -/
theorem matchPassAt_none {s : List Char}
    (h : containsSub "Running".data s = false) : matchPassAt s = none := by
  cases s with
  | nil => rfl
  | cons c t =>
    unfold matchPassAt
    rw [stripPre_eq_none_of_not_isPrefixOf (containsSub_head_false h)]

theorem matchFailAt_none {s : List Char}
    (h : containsSub "Running".data s = false) : matchFailAt s = none := by
  cases s with
  | nil => rfl
  | cons c t =>
    unfold matchFailAt
    have hpre : ("Running ".data).isPrefixOf (c :: t) = false := by
      by_contra hx
      have hx' : ("Running ".data).isPrefixOf (c :: t) = true := by
        revert hx
        cases ("Running ".data).isPrefixOf (c :: t) <;> simp
      have : ("Running".data).isPrefixOf (c :: t) = true :=
        isPrefixOf_of_append (p := "Running".data) (q := [' ']) hx'
      rw [containsSub_head_false h] at this
      exact Bool.false_ne_true this
    rw [stripPre_eq_none_of_not_isPrefixOf hpre]

theorem scanPass_nil : ∀ (fuel : Nat) (s : List Char),
    containsSub "Running".data s = false → scanPass fuel s = []
  | 0, _, _ => rfl
  | fuel + 1, s, h => by
    cases s with
    | nil => rfl
    | cons c t =>
      unfold scanPass
      rw [matchPassAt_none h]
      exact scanPass_nil fuel t (containsSub_tail h)

theorem scanFail_nil : ∀ (fuel : Nat) (s : List Char),
    containsSub "Running".data s = false → scanFail fuel s = []
  | 0, _, _ => rfl
  | fuel + 1, s, h => by
    cases s with
    | nil => rfl
    | cons c t =>
      unfold scanFail
      rw [matchFailAt_none h]
      exact scanFail_nil fuel t (containsSub_tail h)

/-! ## Claims -/

set_option maxRecDepth 4000

/-- A synthetic maven log in which the class `com.Foo` is reported once
with no failures and once with a failure (the first eight characters are
padding, since the dubbo `findall` scan starts at index 8). -/
def dubboOverlapLog : String :=
  "PADDING\nRunning com.Foo\nTests run: 1, Failures: 0, Errors: 0, Skipped: 0, Time elapsed: 0.1 sec\nRunning com.Foo\nTests run: 1, Failures: 1, Errors: 0, Skipped: 0, Time elapsed: 0.1 sec\n"

/-- C1 (counterexample): the dubbo adapter's `parse_log` does not make the
three sets pairwise disjoint — on `dubboOverlapLog` the identifier
`com.Foo` is in both `passed_tests` and `failed_tests`. -/
theorem c1_disjointness_counterexample :
    "com.Foo" ∈ (dubbo_parse_log dubboOverlapLog).passed_tests ∧
    "com.Foo" ∈ (dubbo_parse_log dubboOverlapLog).failed_tests ∧
    (dubbo_parse_log dubboOverlapLog).passed_tests ∩
      (dubbo_parse_log dubboOverlapLog).failed_tests ≠ ∅ := by
  decide

/-- C1 (amended): for every raw log string, the gin adapter's `parse_log`
returns pairwise disjoint sets and counts equal to the set sizes; the
dubbo adapter's `parse_log` returns counts equal to the set sizes (but its
sets need not be disjoint — see `c1_disjointness_counterexample`). -/
theorem c1_invariant (log : String) :
    (gin_parse_log log).passed_tests ∩ (gin_parse_log log).failed_tests = ∅ ∧
    (gin_parse_log log).passed_tests ∩ (gin_parse_log log).skipped_tests = ∅ ∧
    (gin_parse_log log).failed_tests ∩ (gin_parse_log log).skipped_tests = ∅ ∧
    (gin_parse_log log).passed_count = (gin_parse_log log).passed_tests.card ∧
    (gin_parse_log log).failed_count = (gin_parse_log log).failed_tests.card ∧
    (gin_parse_log log).skipped_count = (gin_parse_log log).skipped_tests.card ∧
    (dubbo_parse_log log).passed_count = (dubbo_parse_log log).passed_tests.card ∧
    (dubbo_parse_log log).failed_count = (dubbo_parse_log log).failed_tests.card ∧
    (dubbo_parse_log log).skipped_count = (dubbo_parse_log log).skipped_tests.card := by
  refine ⟨?_, ?_, ?_, rfl, rfl, rfl, rfl, rfl, rfl⟩
  · show ((ginExtract log).1 \ (ginExtract log).2.1) ∩ (ginExtract log).2.1 = ∅
    exact Finset.sdiff_inter_self _ _
  · show ((ginExtract log).1 \ (ginExtract log).2.1) ∩
      (((ginExtract log).2.2 \ (ginExtract log).2.1) \
        ((ginExtract log).1 \ (ginExtract log).2.1)) = ∅
    exact Finset.inter_sdiff_self _ _
  · show (ginExtract log).2.1 ∩
      (((ginExtract log).2.2 \ (ginExtract log).2.1) \
        ((ginExtract log).1 \ (ginExtract log).2.1)) = ∅
    refine Finset.disjoint_iff_inter_eq_empty.mp ?_
    exact (Finset.sdiff_disjoint.mono_left Finset.sdiff_subset).symm

/-- A synthetic maven log in which the class `com.Bar` is reported once
passing and once failing. -/
def dubboBothLog : String :=
  "PADDING\nRunning com.Bar\nTests run: 2, Failures: 0, Errors: 0, Skipped: 0, Time elapsed: 0.2 sec\nRunning com.Bar\nTests run: 2, Failures: 0, Errors: 1, Skipped: 0, Time elapsed: 0.2 sec\n"

/-- C2 (counterexample): in the dubbo adapter an identifier extracted as
both passed and failed does *not* end up only in `failed_tests`: it stays
in `passed_tests` as well. -/
theorem c2_precedence_counterexample :
    "com.Bar" ∈ (dubbo_parse_log dubboBothLog).failed_tests ∧
    "com.Bar" ∈ (dubbo_parse_log dubboBothLog).passed_tests := by
  decide

/-- C2 (amended): the gin adapter's `parse_log` resolves conflicts by the
subtraction reduction in strict precedence failed > passed > skipped:
`passed_tests` is the extracted passed set minus the failed set,
`failed_tests` is the extracted failed set, `skipped_tests` is the
extracted skipped set minus the failed set minus the reduced passed set —
so an identifier extracted as both passed and failed is in `failed_tests`
only.  (The dubbo adapter performs no such reduction; see
`c2_precedence_counterexample`.) -/
theorem c2_precedence (log : String) (t : String)
    (hp : t ∈ (ginExtract log).1) (hf : t ∈ (ginExtract log).2.1) :
    t ∈ (gin_parse_log log).failed_tests ∧
    t ∉ (gin_parse_log log).passed_tests ∧
    t ∉ (gin_parse_log log).skipped_tests ∧
    (gin_parse_log log).passed_tests = (ginExtract log).1 \ (ginExtract log).2.1 ∧
    (gin_parse_log log).failed_tests = (ginExtract log).2.1 ∧
    (gin_parse_log log).skipped_tests =
      ((ginExtract log).2.2 \ (ginExtract log).2.1) \
        ((ginExtract log).1 \ (ginExtract log).2.1) := by
  refine ⟨hf, ?_, ?_, rfl, rfl, rfl⟩
  · show t ∉ (ginExtract log).1 \ (ginExtract log).2.1
    simp [Finset.mem_sdiff, hf]
  · show t ∉ ((ginExtract log).2.2 \ (ginExtract log).2.1) \
      ((ginExtract log).1 \ (ginExtract log).2.1)
    simp [Finset.mem_sdiff, hf]

/-- A synthetic go log marking `TestX` as both passed and failed. -/
def ginBothLog : String := "--- PASS: TestX\n--- FAIL: TestX"

/-- Witness for `c2_precedence` at a concrete log. -/
theorem c2_precedence_witness :
    ("TestX" ∈ (ginExtract ginBothLog).1 ∧
     "TestX" ∈ (ginExtract ginBothLog).2.1) ∧
    ("TestX" ∈ (gin_parse_log ginBothLog).failed_tests ∧
     "TestX" ∉ (gin_parse_log ginBothLog).passed_tests ∧
     "TestX" ∉ (gin_parse_log ginBothLog).skipped_tests ∧
     (gin_parse_log ginBothLog).passed_tests =
       (ginExtract ginBothLog).1 \ (ginExtract ginBothLog).2.1 ∧
     (gin_parse_log ginBothLog).failed_tests = (ginExtract ginBothLog).2.1 ∧
     (gin_parse_log ginBothLog).skipped_tests =
       ((ginExtract ginBothLog).2.2 \ (ginExtract ginBothLog).2.1) \
         ((ginExtract ginBothLog).1 \ (ginExtract ginBothLog).2.1)) :=
  ⟨⟨by decide, by decide⟩,
   c2_precedence ginBothLog "TestX" (by decide) (by decide)⟩

/-- The synthetic go log of the spec's end-to-end scenario. -/
def ginScenarioLog : String := "--- PASS: TestA\n--- FAIL: TestB\nFAIL\tpkg/foo 0.01s"

/-- C4: on the spec's synthetic go log the gin adapter yields
`passed_tests = {TestA}`, `failed_tests = {TestB, pkg::pkg/foo}`,
`skipped_tests = {}` with counts 1/2/0. -/
theorem c4_scenario :
    (gin_parse_log ginScenarioLog).passed_tests = {"TestA"} ∧
    (gin_parse_log ginScenarioLog).failed_tests = {"TestB", "pkg::pkg/foo"} ∧
    (gin_parse_log ginScenarioLog).skipped_tests = ∅ ∧
    (gin_parse_log ginScenarioLog).passed_count = 1 ∧
    (gin_parse_log ginScenarioLog).failed_count = 2 ∧
    (gin_parse_log ginScenarioLog).skipped_count = 0 := by
  decide

/-- C7: walking `dependency()` from each registered instance's terminal
image (`ImageDefault`) reaches the external base reference in exactly two
hops — `ImageDefault → ImageBase → "golang:latest"` for gin-gonic/gin and
`ImageDefault → ImageBase → "ubuntu:22.04"` for apache/dubbo.  The walk is
a function of the layer (deterministic, hence no branching), and reaching
the external string in two hops rules out any cycle. -/
theorem c7_chain_termination :
    chainWalk ginDependency 10 GinLayer.default = some ("golang:latest", 2) ∧
    chainWalk dubboDependency 10 DubboLayer.default = some ("ubuntu:22.04", 2) ∧
    ginDependency GinLayer.default = Sum.inr GinLayer.base ∧
    ginDependency GinLayer.base = Sum.inl "golang:latest" ∧
    dubboDependency DubboLayer.default = Sum.inr DubboLayer.base ∧
    dubboDependency DubboLayer.base = Sum.inl "ubuntu:22.04" := by
  refine ⟨rfl, rfl, rfl, rfl, rfl, rfl⟩

/-- A line (after stripping) on which none of the five compiled gin
patterns match: no known pattern recognizes it. -/
def ginLineNoMatch (line : List Char) : Prop :=
  ginPassName line = none ∧ ginFailName line = none ∧
  ginSkipName line = none ∧ ginPkgOkName line = none ∧
  ginPkgFailName line = none

instance (line : List Char) : Decidable (ginLineNoMatch line) := by
  unfold ginLineNoMatch
  infer_instance

/-- C3: the embedded `parse_log` of both adapters is a total function into
`TestResult` (it is built from total regex primitives, so no input can
raise), and unrecognized input is silently dropped: a gin line matching no
known pattern leaves the extraction state unchanged, and a maven log in
which the anchor literal `Running` never occurs (so neither dubbo pattern
can match anywhere) produces the empty `TestResult`. -/
theorem c3_total_lossy (st : Finset String × Finset String × Finset String)
    (raw : List Char) (log : String)
    (hgin : ginLineNoMatch (pyStrip raw))
    (hdubbo : containsSub "Running".data log.data = false) :
    ginStep st raw = st ∧ dubbo_parse_log log = emptyTestResult := by
  constructor
  · exact ginStep_id st raw hgin.1 hgin.2.1 hgin.2.2.1 hgin.2.2.2.2
  · have h8 : containsSub "Running".data (log.data.drop 8) = false :=
      containsSub_drop 8 hdubbo
    simp only [dubbo_parse_log]
    rw [scanPass_nil _ _ h8, scanFail_nil _ _ h8]
    rfl

/-- Witness for `c3_total_lossy` at concrete garbage input. -/
theorem c3_total_lossy_witness :
    ginLineNoMatch (pyStrip "some random noise !!".data) ∧
    containsSub "Running".data ("no maven output here at all" : String).data = false ∧
    (ginStep (∅, ∅, ∅) "some random noise !!".data = (∅, ∅, ∅) ∧
     dubbo_parse_log "no maven output here at all" = emptyTestResult) :=
  ⟨by decide, by decide,
   c3_total_lossy (∅, ∅, ∅) "some random noise !!".data
     "no maven output here at all" (by decide) (by decide)⟩

/-- A line (after stripping) on which none of the four patterns actually
applied by the gin loop match — the unused `re_pkg_ok` may still match. -/
def ginUsedNoMatch (line : List Char) : Prop :=
  ginPassName line = none ∧ ginFailName line = none ∧
  ginSkipName line = none ∧ ginPkgFailName line = none

instance (line : List Char) : Decidable (ginUsedNoMatch line) := by
  unfold ginUsedNoMatch
  infer_instance

/-- C10: package-level success lines are never counted by the gin adapter.
`re_pkg_ok` is compiled but its matches are never added to any set, so any
log in which no line matches the four applied patterns — even when every
line is a package-level `ok <pkg> ...` line matched by `re_pkg_ok` —
yields the empty `TestResult`. -/
theorem c10_pkg_ok_dropped (log : String)
    (h : ∀ l ∈ pySplitlines log.data, ginUsedNoMatch (pyStrip l)) :
    gin_parse_log log = emptyTestResult := by
  have hex : ginExtract log = (∅, ∅, ∅) := by
    unfold ginExtract
    exact ginFold_id _ _ (fun l hl => (h l hl))
  unfold gin_parse_log
  rw [hex]
  simp [emptyTestResult]

/-- A log whose lines are exactly the package-level success markers. -/
def ginPkgOkLog : String := "ok  \tgithub.com/gin-gonic/gin 0.123s\nok  \tgithub.com/gin-gonic/gin/binding 1.0s"

/-- Witness for `c10_pkg_ok_dropped`: the lines of `ginPkgOkLog` are
matched by the compiled-but-unused `re_pkg_ok` pattern and by none of the
four applied patterns, and the result is empty. -/
theorem c10_pkg_ok_dropped_witness :
    (∀ l ∈ pySplitlines ginPkgOkLog.data, ginUsedNoMatch (pyStrip l)) ∧
    (∀ l ∈ pySplitlines ginPkgOkLog.data, (ginPkgOkName (pyStrip l)).isSome = true) ∧
    gin_parse_log ginPkgOkLog = emptyTestResult :=
  ⟨by decide, by decide, c10_pkg_ok_dropped ginPkgOkLog (by decide)⟩

/-- A well-formed interpolated field (repository name or commit sha): it
contains no line-boundary character and no `|`.  GitHub repository names
and commit hashes always satisfy this. -/
def cleanStr (s : String) : Prop :=
  ∀ c ∈ s.data, isBreakChar c = false ∧ c ≠ '|'

instance (s : String) : Decidable (cleanStr s) := by
  unfold cleanStr
  infer_instance

theorem cleanChunk_append {a : List Char} {s : String}
    (ha : ∀ c ∈ a, isBreakChar c = false) (h : cleanStr s) :
    ∀ c ∈ a ++ s.data, isBreakChar c = false := by
  intro c hc
  rcases List.mem_append.mp hc with hx | hx
  · exact ha c hx
  · exact (h c hx).1

/-- The lines of gin `fix-run.sh`. -/
theorem ginFixRunSh_lines (pr : PullRequest) (h : cleanStr pr.repo) :
    pyLines (ginFixRunSh pr) =
      ["#!/bin/bash", "set -e", "cd /home/" ++ pr.repo,
       "git apply /home/test.patch /home/fix.patch",
       "go test -v -count=1 ./..."] := by
  have hA : ("#!/bin/bash\nset -e\ncd /home/" : String).data =
      "#!/bin/bash".data ++ '\n' :: ("set -e".data ++ '\n' :: "cd /home/".data) := by
    decide
  have hB : ("\ngit apply /home/test.patch /home/fix.patch\ngo test -v -count=1 ./...\n" : String).data =
      '\n' :: ("git apply /home/test.patch /home/fix.patch".data ++
        '\n' :: ("go test -v -count=1 ./...".data ++ ['\n'])) := by
    decide
  have hd : (ginFixRunSh pr).data = joinNl
      ["#!/bin/bash".data, "set -e".data, "cd /home/".data ++ pr.repo.data,
       "git apply /home/test.patch /home/fix.patch".data,
       "go test -v -count=1 ./...".data] := by
    show (("#!/bin/bash\nset -e\ncd /home/" ++ pr.repo) ++
      "\ngit apply /home/test.patch /home/fix.patch\ngo test -v -count=1 ./...\n").data = _
    rw [str_data_append, str_data_append, hA, hB]
    simp [joinNl, List.append_assoc]
  have hcl : ∀ l ∈ ["#!/bin/bash".data, "set -e".data,
      "cd /home/".data ++ pr.repo.data,
      "git apply /home/test.patch /home/fix.patch".data,
      "go test -v -count=1 ./...".data], ∀ c ∈ l, isBreakChar c = false := by
    intro l hl
    simp only [List.mem_cons, List.not_mem_nil, or_false] at hl
    rcases hl with rfl | rfl | rfl | rfl | rfl
    · decide
    · decide
    · exact cleanChunk_append (by decide) h
    · decide
    · decide
  rw [pyLines_of_chunks _ _ hd hcl]
  rfl

/-- The lines of dubbo `fix-run.sh`. -/
theorem dubboFixRunSh_lines (pr : PullRequest) (h : cleanStr pr.repo) :
    pyLines (dubboFixRunSh pr) =
      ["#!/bin/bash", "set -e", "", "cd /home/" ++ pr.repo,
       "git apply --whitespace=nowarn /home/test.patch /home/fix.patch",
       "mvn clean test -Dmaven.test.skip=false -DfailIfNoTests=false", ""] := by
  have hA : ("#!/bin/bash\nset -e\n\ncd /home/" : String).data =
      "#!/bin/bash".data ++ '\n' :: ("set -e".data ++ '\n' :: '\n' :: "cd /home/".data) := by
    decide
  have hB : ("\ngit apply --whitespace=nowarn /home/test.patch /home/fix.patch\nmvn clean test -Dmaven.test.skip=false -DfailIfNoTests=false\n\n" : String).data =
      '\n' :: ("git apply --whitespace=nowarn /home/test.patch /home/fix.patch".data ++
        '\n' :: ("mvn clean test -Dmaven.test.skip=false -DfailIfNoTests=false".data ++ ['\n', '\n'])) := by
    decide
  have hd : (dubboFixRunSh pr).data = joinNl
      ["#!/bin/bash".data, "set -e".data, [], "cd /home/".data ++ pr.repo.data,
       "git apply --whitespace=nowarn /home/test.patch /home/fix.patch".data,
       "mvn clean test -Dmaven.test.skip=false -DfailIfNoTests=false".data, []] := by
    show (("#!/bin/bash\nset -e\n\ncd /home/" ++ pr.repo) ++
      "\ngit apply --whitespace=nowarn /home/test.patch /home/fix.patch\nmvn clean test -Dmaven.test.skip=false -DfailIfNoTests=false\n\n").data = _
    rw [str_data_append, str_data_append, hA, hB]
    simp [joinNl, List.append_assoc]
  have hcl : ∀ l ∈ ["#!/bin/bash".data, "set -e".data, ([] : List Char),
      "cd /home/".data ++ pr.repo.data,
      "git apply --whitespace=nowarn /home/test.patch /home/fix.patch".data,
      "mvn clean test -Dmaven.test.skip=false -DfailIfNoTests=false".data,
      ([] : List Char)], ∀ c ∈ l, isBreakChar c = false := by
    intro l hl
    simp only [List.mem_cons, List.not_mem_nil, or_false] at hl
    rcases hl with rfl | rfl | rfl | rfl | rfl | rfl | rfl
    · decide
    · decide
    · decide
    · exact cleanChunk_append (by decide) h
    · decide
    · decide
    · decide
  rw [pyLines_of_chunks _ _ hd hcl]
  rfl

/-- C5: for every pull request (with a well-formed repository name) the
generated `fix-run.sh` of each adapter has the single patch-applying line
`git apply … /home/test.patch /home/fix.patch` — naming `test.patch`
before `fix.patch` — followed immediately by the line that runs the test
suite; nothing runs tests before it. -/
theorem c5_patch_order (pr : PullRequest) (h : cleanStr pr.repo) :
    pyLines (ginFixRunSh pr) =
      ["#!/bin/bash", "set -e", "cd /home/" ++ pr.repo,
       "git apply /home/test.patch /home/fix.patch",
       "go test -v -count=1 ./..."] ∧
    pyLines (dubboFixRunSh pr) =
      ["#!/bin/bash", "set -e", "", "cd /home/" ++ pr.repo,
       "git apply --whitespace=nowarn /home/test.patch /home/fix.patch",
       "mvn clean test -Dmaven.test.skip=false -DfailIfNoTests=false", ""] :=
  ⟨ginFixRunSh_lines pr h, dubboFixRunSh_lines pr h⟩

/-- A concrete pull request used to instantiate the script theorems. -/
def pr0 : PullRequest :=
  ⟨"gin-gonic", "gin", 3000, ⟨"0123abcd4567ef89"⟩, "FIX-DIFF", "TEST-DIFF"⟩

/-- Witness for `c5_patch_order` at the concrete pull request `pr0`. -/
theorem c5_patch_order_witness :
    cleanStr pr0.repo ∧
    (pyLines (ginFixRunSh pr0) =
      ["#!/bin/bash", "set -e", "cd /home/" ++ pr0.repo,
       "git apply /home/test.patch /home/fix.patch",
       "go test -v -count=1 ./..."] ∧
     pyLines (dubboFixRunSh pr0) =
      ["#!/bin/bash", "set -e", "", "cd /home/" ++ pr0.repo,
       "git apply --whitespace=nowarn /home/test.patch /home/fix.patch",
       "mvn clean test -Dmaven.test.skip=false -DfailIfNoTests=false", ""]) :=
  ⟨by decide, c5_patch_order pr0 (by decide)⟩

/-- The lines of gin `prepare.sh`. -/
theorem ginPrepareSh_lines (pr : PullRequest)
    (hrepo : cleanStr pr.repo) (hsha : cleanStr pr.base.sha) :
    pyLines (ginPrepareSh pr) =
      ["#!/bin/bash", "set -e", "cd /home/" ++ pr.repo, "git reset --hard",
       "bash /home/check_git_changes.sh", "git checkout " ++ pr.base.sha,
       "bash /home/check_git_changes.sh",
       "bash /home/resolve_go_file.sh /home/" ++ pr.repo, "",
       "# Injected setup commands", "", "",
       "go test -v -count=1 ./... || true"] := by
  have hA : ("#!/bin/bash\nset -e\ncd /home/" : String).data =
      "#!/bin/bash".data ++ '\n' :: ("set -e".data ++ '\n' :: "cd /home/".data) := by
    decide
  have hB : ("\ngit reset --hard\nbash /home/check_git_changes.sh\ngit checkout " : String).data =
      '\n' :: ("git reset --hard".data ++ '\n' :: ("bash /home/check_git_changes.sh".data ++
        '\n' :: "git checkout ".data)) := by
    decide
  have hC : ("\nbash /home/check_git_changes.sh\nbash /home/resolve_go_file.sh /home/" : String).data =
      '\n' :: ("bash /home/check_git_changes.sh".data ++
        '\n' :: "bash /home/resolve_go_file.sh /home/".data) := by
    decide
  have hD : ("\n\n# Injected setup commands\n\n\ngo test -v -count=1 ./... || true\n" : String).data =
      '\n' :: '\n' :: ("# Injected setup commands".data ++
        '\n' :: '\n' :: '\n' :: ("go test -v -count=1 ./... || true".data ++ ['\n'])) := by
    decide
  have hd : (ginPrepareSh pr).data = joinNl
      ["#!/bin/bash".data, "set -e".data, "cd /home/".data ++ pr.repo.data,
       "git reset --hard".data, "bash /home/check_git_changes.sh".data,
       "git checkout ".data ++ pr.base.sha.data,
       "bash /home/check_git_changes.sh".data,
       "bash /home/resolve_go_file.sh /home/".data ++ pr.repo.data, [],
       "# Injected setup commands".data, [], [],
       "go test -v -count=1 ./... || true".data] := by
    show ((((("#!/bin/bash\nset -e\ncd /home/" ++ pr.repo) ++
      "\ngit reset --hard\nbash /home/check_git_changes.sh\ngit checkout ") ++ pr.base.sha) ++
      "\nbash /home/check_git_changes.sh\nbash /home/resolve_go_file.sh /home/") ++ pr.repo ++
      "\n\n# Injected setup commands\n\n\ngo test -v -count=1 ./... || true\n").data = _
    rw [str_data_append, str_data_append, str_data_append, str_data_append,
      str_data_append, str_data_append, hA, hB, hC, hD]
    simp [joinNl, List.append_assoc]
  have hcl : ∀ l ∈ ["#!/bin/bash".data, "set -e".data,
      "cd /home/".data ++ pr.repo.data,
      "git reset --hard".data, "bash /home/check_git_changes.sh".data,
      "git checkout ".data ++ pr.base.sha.data,
      "bash /home/check_git_changes.sh".data,
      "bash /home/resolve_go_file.sh /home/".data ++ pr.repo.data, ([] : List Char),
      "# Injected setup commands".data, ([] : List Char), ([] : List Char),
      "go test -v -count=1 ./... || true".data], ∀ c ∈ l, isBreakChar c = false := by
    intro l hl
    simp only [List.mem_cons, List.not_mem_nil, or_false] at hl
    rcases hl with rfl | rfl | rfl | rfl | rfl | rfl | rfl | rfl | rfl | rfl | rfl | rfl | rfl
    · decide
    · decide
    · exact cleanChunk_append (by decide) hrepo
    · decide
    · decide
    · exact cleanChunk_append (by decide) hsha
    · decide
    · exact cleanChunk_append (by decide) hrepo
    · decide
    · decide
    · decide
    · decide
    · decide
  rw [pyLines_of_chunks _ _ hd hcl]
  rfl

/-- The lines of dubbo `prepare.sh`. -/
theorem dubboPrepareSh_lines (pr : PullRequest)
    (hrepo : cleanStr pr.repo) (hsha : cleanStr pr.base.sha) :
    pyLines (dubboPrepareSh pr) =
      ["#!/bin/bash", "set -e", "", "cd /home/" ++ pr.repo, "git reset --hard",
       "bash /home/check_git_changes.sh", "git checkout " ++ pr.base.sha,
       "bash /home/check_git_changes.sh", "",
       "# Injected setup commands", "", "",
       "mvn clean test -Dmaven.test.skip=false -DfailIfNoTests=false || true"] := by
  have hA : ("#!/bin/bash\nset -e\n\ncd /home/" : String).data =
      "#!/bin/bash".data ++ '\n' :: ("set -e".data ++ '\n' :: '\n' :: "cd /home/".data) := by
    decide
  have hB : ("\ngit reset --hard\nbash /home/check_git_changes.sh\ngit checkout " : String).data =
      '\n' :: ("git reset --hard".data ++ '\n' :: ("bash /home/check_git_changes.sh".data ++
        '\n' :: "git checkout ".data)) := by
    decide
  have hC : ("\nbash /home/check_git_changes.sh\n\n# Injected setup commands\n\n\nmvn clean test -Dmaven.test.skip=false -DfailIfNoTests=false || true\n" : String).data =
      '\n' :: ("bash /home/check_git_changes.sh".data ++ '\n' :: '\n' ::
        ("# Injected setup commands".data ++ '\n' :: '\n' :: '\n' ::
          ("mvn clean test -Dmaven.test.skip=false -DfailIfNoTests=false || true".data ++ ['\n']))) := by
    decide
  have hd : (dubboPrepareSh pr).data = joinNl
      ["#!/bin/bash".data, "set -e".data, [], "cd /home/".data ++ pr.repo.data,
       "git reset --hard".data, "bash /home/check_git_changes.sh".data,
       "git checkout ".data ++ pr.base.sha.data,
       "bash /home/check_git_changes.sh".data, [],
       "# Injected setup commands".data, [], [],
       "mvn clean test -Dmaven.test.skip=false -DfailIfNoTests=false || true".data] := by
    show ((("#!/bin/bash\nset -e\n\ncd /home/" ++ pr.repo) ++
      "\ngit reset --hard\nbash /home/check_git_changes.sh\ngit checkout ") ++ pr.base.sha ++
      "\nbash /home/check_git_changes.sh\n\n# Injected setup commands\n\n\nmvn clean test -Dmaven.test.skip=false -DfailIfNoTests=false || true\n").data = _
    rw [str_data_append, str_data_append, str_data_append, str_data_append, hA, hB, hC]
    simp [joinNl, List.append_assoc]
  have hcl : ∀ l ∈ ["#!/bin/bash".data, "set -e".data, ([] : List Char),
      "cd /home/".data ++ pr.repo.data,
      "git reset --hard".data, "bash /home/check_git_changes.sh".data,
      "git checkout ".data ++ pr.base.sha.data,
      "bash /home/check_git_changes.sh".data, ([] : List Char),
      "# Injected setup commands".data, ([] : List Char), ([] : List Char),
      "mvn clean test -Dmaven.test.skip=false -DfailIfNoTests=false || true".data],
      ∀ c ∈ l, isBreakChar c = false := by
    intro l hl
    simp only [List.mem_cons, List.not_mem_nil, or_false] at hl
    rcases hl with rfl | rfl | rfl | rfl | rfl | rfl | rfl | rfl | rfl | rfl | rfl | rfl | rfl
    · decide
    · decide
    · decide
    · exact cleanChunk_append (by decide) hrepo
    · decide
    · decide
    · exact cleanChunk_append (by decide) hsha
    · decide
    · decide
    · decide
    · decide
    · decide
    · decide
  rw [pyLines_of_chunks _ _ hd hcl]
  rfl

/-- C9: both adapters' generated `prepare.sh` start with `set -e`, run —
in order — `git reset --hard`, the clean-tree check, `git checkout` of the
base commit, the clean-tree check again, and the language-specific
pre-test pass; and the pre-test pass is the only line carrying the
non-fatal `|| true` suffix (indeed the only line in which `|| true`
occurs at all). -/
theorem c9_prepare_script (pr : PullRequest)
    (hrepo : cleanStr pr.repo) (hsha : cleanStr pr.base.sha) :
    pyLines (ginPrepareSh pr) =
      ["#!/bin/bash", "set -e", "cd /home/" ++ pr.repo, "git reset --hard",
       "bash /home/check_git_changes.sh", "git checkout " ++ pr.base.sha,
       "bash /home/check_git_changes.sh",
       "bash /home/resolve_go_file.sh /home/" ++ pr.repo, "",
       "# Injected setup commands", "", "",
       "go test -v -count=1 ./... || true"] ∧
    List.Sublist
      ["git reset --hard", "bash /home/check_git_changes.sh",
       "git checkout " ++ pr.base.sha, "bash /home/check_git_changes.sh",
       "go test -v -count=1 ./... || true"]
      (pyLines (ginPrepareSh pr)) ∧
    (∀ l ∈ pyLines (ginPrepareSh pr), containsSub "|| true".data l.data = true →
      l = "go test -v -count=1 ./... || true") ∧
    pyLines (dubboPrepareSh pr) =
      ["#!/bin/bash", "set -e", "", "cd /home/" ++ pr.repo, "git reset --hard",
       "bash /home/check_git_changes.sh", "git checkout " ++ pr.base.sha,
       "bash /home/check_git_changes.sh", "",
       "# Injected setup commands", "", "",
       "mvn clean test -Dmaven.test.skip=false -DfailIfNoTests=false || true"] ∧
    List.Sublist
      ["git reset --hard", "bash /home/check_git_changes.sh",
       "git checkout " ++ pr.base.sha, "bash /home/check_git_changes.sh",
       "mvn clean test -Dmaven.test.skip=false -DfailIfNoTests=false || true"]
      (pyLines (dubboPrepareSh pr)) ∧
    (∀ l ∈ pyLines (dubboPrepareSh pr), containsSub "|| true".data l.data = true →
      l = "mvn clean test -Dmaven.test.skip=false -DfailIfNoTests=false || true") := by
  have hg := ginPrepareSh_lines pr hrepo hsha
  have hdb := dubboPrepareSh_lines pr hrepo hsha
  refine ⟨hg, ?_, ?_, hdb, ?_, ?_⟩
  · rw [hg]
    apply List.Sublist.cons
    apply List.Sublist.cons
    apply List.Sublist.cons
    apply List.Sublist.cons₂
    apply List.Sublist.cons₂
    apply List.Sublist.cons₂
    apply List.Sublist.cons₂
    apply List.Sublist.cons
    apply List.Sublist.cons
    apply List.Sublist.cons
    apply List.Sublist.cons
    apply List.Sublist.cons
    apply List.Sublist.cons₂
    exact List.nil_sublist []
  · rw [hg]
    intro l hl hc
    simp only [List.mem_cons, List.not_mem_nil, or_false] at hl
    rcases hl with rfl | rfl | rfl | rfl | rfl | rfl | rfl | rfl | rfl | rfl | rfl | rfl | rfl
    · revert hc; decide
    · revert hc; decide
    · exfalso
      have hmem : '|' ∈ ("cd /home/" ++ pr.repo).data :=
        containsSub_mem hc (by decide)
      rw [str_data_append] at hmem
      rcases List.mem_append.mp hmem with hx | hx
      · revert hx; decide
      · exact (hrepo '|' hx).2 rfl
    · revert hc; decide
    · revert hc; decide
    · exfalso
      have hmem : '|' ∈ ("git checkout " ++ pr.base.sha).data :=
        containsSub_mem hc (by decide)
      rw [str_data_append] at hmem
      rcases List.mem_append.mp hmem with hx | hx
      · revert hx; decide
      · exact (hsha '|' hx).2 rfl
    · revert hc; decide
    · exfalso
      have hmem : '|' ∈ ("bash /home/resolve_go_file.sh /home/" ++ pr.repo).data :=
        containsSub_mem hc (by decide)
      rw [str_data_append] at hmem
      rcases List.mem_append.mp hmem with hx | hx
      · revert hx; decide
      · exact (hrepo '|' hx).2 rfl
    · revert hc; decide
    · revert hc; decide
    · revert hc; decide
    · revert hc; decide
    · rfl
  · rw [hdb]
    apply List.Sublist.cons
    apply List.Sublist.cons
    apply List.Sublist.cons
    apply List.Sublist.cons
    apply List.Sublist.cons₂
    apply List.Sublist.cons₂
    apply List.Sublist.cons₂
    apply List.Sublist.cons₂
    apply List.Sublist.cons
    apply List.Sublist.cons
    apply List.Sublist.cons
    apply List.Sublist.cons
    apply List.Sublist.cons₂
    exact List.nil_sublist []
  · rw [hdb]
    intro l hl hc
    simp only [List.mem_cons, List.not_mem_nil, or_false] at hl
    rcases hl with rfl | rfl | rfl | rfl | rfl | rfl | rfl | rfl | rfl | rfl | rfl | rfl | rfl
    · revert hc; decide
    · revert hc; decide
    · revert hc; decide
    · exfalso
      have hmem : '|' ∈ ("cd /home/" ++ pr.repo).data :=
        containsSub_mem hc (by decide)
      rw [str_data_append] at hmem
      rcases List.mem_append.mp hmem with hx | hx
      · revert hx; decide
      · exact (hrepo '|' hx).2 rfl
    · revert hc; decide
    · revert hc; decide
    · exfalso
      have hmem : '|' ∈ ("git checkout " ++ pr.base.sha).data :=
        containsSub_mem hc (by decide)
      rw [str_data_append] at hmem
      rcases List.mem_append.mp hmem with hx | hx
      · revert hx; decide
      · exact (hsha '|' hx).2 rfl
    · revert hc; decide
    · revert hc; decide
    · revert hc; decide
    · revert hc; decide
    · revert hc; decide
    · rfl

/-- Witness for `c9_prepare_script` at the concrete pull request `pr0`. -/
theorem c9_prepare_script_witness :
    cleanStr pr0.repo ∧ cleanStr pr0.base.sha ∧
    (pyLines (ginPrepareSh pr0) =
      ["#!/bin/bash", "set -e", "cd /home/" ++ pr0.repo, "git reset --hard",
       "bash /home/check_git_changes.sh", "git checkout " ++ pr0.base.sha,
       "bash /home/check_git_changes.sh",
       "bash /home/resolve_go_file.sh /home/" ++ pr0.repo, "",
       "# Injected setup commands", "", "",
       "go test -v -count=1 ./... || true"] ∧
    List.Sublist
      ["git reset --hard", "bash /home/check_git_changes.sh",
       "git checkout " ++ pr0.base.sha, "bash /home/check_git_changes.sh",
       "go test -v -count=1 ./... || true"]
      (pyLines (ginPrepareSh pr0)) ∧
    (∀ l ∈ pyLines (ginPrepareSh pr0), containsSub "|| true".data l.data = true →
      l = "go test -v -count=1 ./... || true") ∧
    pyLines (dubboPrepareSh pr0) =
      ["#!/bin/bash", "set -e", "", "cd /home/" ++ pr0.repo, "git reset --hard",
       "bash /home/check_git_changes.sh", "git checkout " ++ pr0.base.sha,
       "bash /home/check_git_changes.sh", "",
       "# Injected setup commands", "", "",
       "mvn clean test -Dmaven.test.skip=false -DfailIfNoTests=false || true"] ∧
    List.Sublist
      ["git reset --hard", "bash /home/check_git_changes.sh",
       "git checkout " ++ pr0.base.sha, "bash /home/check_git_changes.sh",
       "mvn clean test -Dmaven.test.skip=false -DfailIfNoTests=false || true"]
      (pyLines (dubboPrepareSh pr0)) ∧
    (∀ l ∈ pyLines (dubboPrepareSh pr0), containsSub "|| true".data l.data = true →
      l = "mvn clean test -Dmaven.test.skip=false -DfailIfNoTests=false || true")) :=
  ⟨by decide, by decide, c9_prepare_script pr0 (by decide) (by decide)⟩

theorem containsSub_self_append (p r : List Char) : containsSub p (p ++ r) = true :=
  containsSub_of_pre (List.isPrefixOf_iff_prefix.mpr (List.prefix_append p r))

/-- A concrete config and parent image name for counterexample purposes. -/
def cfg0 : Config := ⟨true, "ENV BUILD=1", "ENV BUILD="⟩

/-- C6 (counterexample): the dubbo adapter's instance-layer dockerfile
contains the file copies and the `RUN bash /home/prepare.sh` invocation
but no `chmod` instruction at all — the claimed copy → chmod → setup
sequence does not hold for it. -/
theorem c6_chmod_counterexample :
    containsSub "COPY fix.patch /home/".data
      (dubboImageDefaultDockerfile pr0 cfg0 "dubbo-base").data = true ∧
    containsSub "RUN bash /home/prepare.sh".data
      (dubboImageDefaultDockerfile pr0 cfg0 "dubbo-base").data = true ∧
    containsSub "chmod".data
      (dubboImageDefaultDockerfile pr0 cfg0 "dubbo-base").data = false := by
  decide

/-- C6 (amended): the gin instance-layer dockerfile renders, in order, one
`COPY <name> /home/` per file of `files()`, then the `chmod +x` fix-up,
then `RUN bash /home/prepare.sh`; the dubbo instance-layer dockerfile
renders the `COPY` lines and then `RUN bash /home/prepare.sh` directly,
with no `chmod` step of its own (see `c6_chmod_counterexample`). -/
theorem c6_instance_dockerfile (pr : PullRequest) (cfg : Config)
    (parentName : String) :
    ginImageDefaultDockerfile pr cfg parentName =
      "FROM " ++ parentName ++ ":base\n\n" ++ cfg.global_env ++ "\n\n" ++
      copyCmds (ginFiles pr) ++
      "\nRUN chmod +x /home/prepare.sh /home/run.sh /home/test-run.sh /home/fix-run.sh /home/check_git_changes.sh /home/resolve_go_file.sh\nRUN bash /home/prepare.sh\n\n" ++
      cfg.clear_env ++ "\n\n" ∧
    copyCmds (ginFiles pr) =
      "COPY fix.patch /home/\nCOPY test.patch /home/\nCOPY run.sh /home/\nCOPY test-run.sh /home/\nCOPY fix-run.sh /home/\nCOPY check_git_changes.sh /home/\nCOPY resolve_go_file.sh /home/\nCOPY prepare.sh /home/\n" ∧
    containsSub "RUN chmod +x ".data
      (ginImageDefaultDockerfile pr cfg parentName).data = true ∧
    dubboImageDefaultDockerfile pr cfg parentName =
      "FROM " ++ parentName ++ ":base\n\n" ++ cfg.global_env ++ "\n\n" ++
      copyCmds (dubboFiles pr) ++
      "\n\nRUN bash /home/prepare.sh\n\n" ++ cfg.clear_env ++ "\n\n" ∧
    copyCmds (dubboFiles pr) =
      "COPY fix.patch /home/\nCOPY test.patch /home/\nCOPY check_git_changes.sh /home/\nCOPY prepare.sh /home/\nCOPY run.sh /home/\nCOPY test-run.sh /home/\nCOPY fix-run.sh /home/\n" := by
  refine ⟨rfl, rfl, ?_, rfl, rfl⟩
  show containsSub "RUN chmod +x ".data
    (("FROM " ++ parentName ++ ":base\n\n" ++ cfg.global_env ++ "\n\n" ++
      copyCmds (ginFiles pr) ++
      "\nRUN chmod +x /home/prepare.sh /home/run.sh /home/test-run.sh /home/fix-run.sh /home/check_git_changes.sh /home/resolve_go_file.sh\nRUN bash /home/prepare.sh\n\n" ++
      cfg.clear_env ++ "\n\n").data) = true
  simp only [str_data_append, List.append_assoc]
  apply containsSub_append_right
  apply containsSub_append_right
  apply containsSub_append_right
  apply containsSub_append_right
  apply containsSub_append_right
  apply containsSub_append_right
  apply containsSub_append_left
  decide

/-- C8: in both adapters the Base-layer dockerfile is decided solely by
`Config.need_clone`: with the flag set it contains the
`RUN git clone https://github.com/<org>/<repo>.git` instruction, and with
the flag clear it contains the `COPY <repo>` instruction from the locally
staged source path instead. -/
theorem c8_need_clone (pr : PullRequest) (cfg : Config) :
    ginImageBaseDockerfile pr cfg =
      "FROM golang:latest\n\n" ++ cfg.global_env ++ "\n\nWORKDIR /home/\n\n" ++
      (if cfg.need_clone then
        "RUN git clone https://github.com/" ++ pr.org ++ "/" ++ pr.repo ++
        ".git /home/" ++ pr.repo
      else
        "COPY " ++ pr.repo ++ " /home/" ++ pr.repo) ++
      "\n\n" ++ cfg.clear_env ++ "\n\n" ∧
    dubboImageBaseDockerfile pr cfg =
      "FROM ubuntu:22.04\n\n" ++ cfg.global_env ++
      "\n\nENV DEBIAN_FRONTEND=noninteractive\nENV LANG=C.UTF-8\nENV LC_ALL=C.UTF-8\nWORKDIR /home/\nRUN apt-get update && apt-get install -y git openjdk-11-jdk\nRUN apt-get install -y maven\n" ++
      (if cfg.need_clone then
        "RUN git clone https://github.com/" ++ pr.org ++ "/" ++ pr.repo ++
        ".git /home/" ++ pr.repo
      else
        "COPY " ++ pr.repo ++ " /home/" ++ pr.repo) ++
      "\n\n" ++ cfg.clear_env ++ "\n\n" ∧
    containsSub "RUN git clone https://github.com/".data
      (ginImageBaseDockerfile pr { cfg with need_clone := true }).data = true ∧
    containsSub "COPY ".data
      (ginImageBaseDockerfile pr { cfg with need_clone := false }).data = true ∧
    containsSub "RUN git clone https://github.com/".data
      (dubboImageBaseDockerfile pr { cfg with need_clone := true }).data = true ∧
    containsSub "COPY ".data
      (dubboImageBaseDockerfile pr { cfg with need_clone := false }).data = true := by
  refine ⟨rfl, rfl, ?_, ?_, ?_, ?_⟩
  · show containsSub "RUN git clone https://github.com/".data
      (("FROM golang:latest\n\n" ++ cfg.global_env ++ "\n\nWORKDIR /home/\n\n" ++
        ("RUN git clone https://github.com/" ++ pr.org ++ "/" ++ pr.repo ++
         ".git /home/" ++ pr.repo) ++
        "\n\n" ++ cfg.clear_env ++ "\n\n").data) = true
    simp only [str_data_append, List.append_assoc]
    apply containsSub_append_right
    apply containsSub_append_right
    apply containsSub_append_right
    exact containsSub_self_append _ _
  · show containsSub "COPY ".data
      (("FROM golang:latest\n\n" ++ cfg.global_env ++ "\n\nWORKDIR /home/\n\n" ++
        ("COPY " ++ pr.repo ++ " /home/" ++ pr.repo) ++
        "\n\n" ++ cfg.clear_env ++ "\n\n").data) = true
    simp only [str_data_append, List.append_assoc]
    apply containsSub_append_right
    apply containsSub_append_right
    apply containsSub_append_right
    exact containsSub_self_append _ _
  · show containsSub "RUN git clone https://github.com/".data
      (("FROM ubuntu:22.04\n\n" ++ cfg.global_env ++
        "\n\nENV DEBIAN_FRONTEND=noninteractive\nENV LANG=C.UTF-8\nENV LC_ALL=C.UTF-8\nWORKDIR /home/\nRUN apt-get update && apt-get install -y git openjdk-11-jdk\nRUN apt-get install -y maven\n" ++
        ("RUN git clone https://github.com/" ++ pr.org ++ "/" ++ pr.repo ++
         ".git /home/" ++ pr.repo) ++
        "\n\n" ++ cfg.clear_env ++ "\n\n").data) = true
    simp only [str_data_append, List.append_assoc]
    apply containsSub_append_right
    apply containsSub_append_right
    apply containsSub_append_right
    exact containsSub_self_append _ _
  · show containsSub "COPY ".data
      (("FROM ubuntu:22.04\n\n" ++ cfg.global_env ++
        "\n\nENV DEBIAN_FRONTEND=noninteractive\nENV LANG=C.UTF-8\nENV LC_ALL=C.UTF-8\nWORKDIR /home/\nRUN apt-get update && apt-get install -y git openjdk-11-jdk\nRUN apt-get install -y maven\n" ++
        ("COPY " ++ pr.repo ++ " /home/" ++ pr.repo) ++
        "\n\n" ++ cfg.clear_env ++ "\n\n").data) = true
    simp only [str_data_append, List.append_assoc]
    apply containsSub_append_right
    apply containsSub_append_right
    apply containsSub_append_right
    exact containsSub_self_append _ _
